import Mathlib

/-
Verification of the SNS chat backend core against its specification.

The embedding is shallow: Python floats are modelled as reals (rationals in
the persistence pipeline, where no transcendental function occurs), nullable
database columns as `Option`, dictionaries as association lists or functions,
and the fallible sentiment call as an `Except` value over an abstract outcome
of the external API.
-/

namespace SNS

/-! ## Scoring engine (backend/app/services/analysis_service.py, calculate_intimacy) -/

/-- Average of a list of floats, `0.0` when empty — the Python idiom
`sum(xs) / len(xs) if xs else 0.0` used both by `calculate_intimacy`
(analysis_service.py line 186) and `average_sentiment` (rankings.py line 34). -/
noncomputable def listAvg (xs : List ℝ) : ℝ :=
  if xs = [] then 0 else xs.sum / xs.length

/-- Factor 1 of `calculate_intimacy` (analysis_service.py lines 184-187):
`((avg_sentiment + 1) / 2) * 40`. -/
noncomputable def sentimentFactor (sentiment_scores : List ℝ) : ℝ :=
  ((listAvg sentiment_scores + 1) / 2) * 40

/-- Factor 2 of `calculate_intimacy` (analysis_service.py lines 189-195):
`min(30, math.log(message_count + 1) * 10)` when `message_count > 0`,
else `0.0`. `message_count` is a Python int, so it is modelled as `ℤ`. -/
noncomputable def frequencyFactor (message_count : ℤ) : ℝ :=
  if 0 < message_count then min 30 (Real.log ((message_count : ℝ) + 1) * 10) else 0

/-- Factor 3 of `calculate_intimacy` (analysis_service.py line 199):
`20.0 if last_sender_id != current_user_id else 10.0`. -/
noncomputable def flowFactor (last_sender_id current_user_id : ℤ) : ℝ :=
  if last_sender_id ≠ current_user_id then 20 else 10

/-- `max(consecutive_messages.values()) if consecutive_messages else 0`
(analysis_service.py line 203); the dictionary enters only through its
values, so the model takes the list of values. -/
def maxConsecutive (vals : List ℤ) : ℤ :=
  match vals with
  | [] => 0
  | v :: rest => rest.foldl max v

/-- Factor 4 of `calculate_intimacy` (analysis_service.py lines 201-211). -/
noncomputable def consecutiveFactor (vals : List ℤ) : ℝ :=
  if maxConsecutive vals ≤ 3 then 10
  else if maxConsecutive vals ≤ 5 then 7
  else if maxConsecutive vals ≤ 10 then 4
  else 0

/-- Return type of `calculate_intimacy` (schemas/analysis.py `IntimacyResult`). -/
structure IntimacyResult where
  intimacy_score : ℝ
  sentiment_factor : ℝ
  frequency_factor : ℝ
  flow_factor : ℝ
  consecutive_factor : ℝ

/-- `calculate_intimacy` (analysis_service.py lines 164-223): the four factors,
summed and clamped by `max(0.0, min(100.0, total))`. -/
noncomputable def calculate_intimacy (sentiment_scores : List ℝ) (message_count : ℤ)
    (last_sender_id current_user_id : ℤ) (consecutive_values : List ℤ) :
    IntimacyResult :=
  let sf := sentimentFactor sentiment_scores
  let ff := frequencyFactor message_count
  let fl := flowFactor last_sender_id current_user_id
  let cf := consecutiveFactor consecutive_values
  { intimacy_score := max 0 (min 100 (sf + ff + fl + cf))
    sentiment_factor := sf
    frequency_factor := ff
    flow_factor := fl
    consecutive_factor := cf }

/-! ## Message pipeline (backend/app/api/api_v1/endpoints/chat.py,
websocket_endpoint) and connection registry
(backend/app/services/connection_manager.py).

Floats here are rationals (no transcendental function occurs), nullable
columns are `Option`, the `active_connections` dict is a function
`ℤ → Option (List ℕ)` with channel handles as naturals, and a channel's
`send_text` failure is abstracted by a `broken` predicate. -/

/-- A row of the `messages` table (models/message.py). All four sentiment
columns are nullable floats; `created_at` is an abstract timestamp. -/
structure MessageRow where
  id : ℕ
  sender_id : ℤ
  receiver_id : ℤ
  content : String
  is_read : Bool
  sentiment_score : Option ℚ
  positive_score : Option ℚ
  negative_score : Option ℚ
  neutral_score : Option ℚ
  created_at : ℕ
deriving DecidableEq

/-- A row of the `friendships` table (models/friendship.py); the columns the
pipeline reads or writes, with the nullable ones as `Option`. -/
structure FriendshipRow where
  user_id : ℤ
  friend_id : ℤ
  status : String
  intimacy_score : Option ℚ
  interaction_count : Option ℤ
deriving DecidableEq

/-- The `or_(and_(...), and_(...))` filter of chat.py lines 101-106: the row
matches the (sender, receiver) pair in either orientation; status is not
consulted. -/
def matchesPair (user_id friend_id : ℤ) (f : FriendshipRow) : Bool :=
  (f.user_id == user_id && f.friend_id == friend_id) ||
  (f.user_id == friend_id && f.friend_id == user_id)

/-- `db.query(Friendship).filter(or_(...)).first()`: the first matching row. -/
def findFriendship (fs : List FriendshipRow) (user_id friend_id : ℤ) :
    Option FriendshipRow :=
  fs.find? (matchesPair user_id friend_id)

/-- The mutation of chat.py lines 108-116: `interaction_count =
(interaction_count or 0) + 1`; `if intimacy_score is None: intimacy_score
= 0.0`; `intimacy_score = min(100.0, intimacy_score + 0.1)`. -/
def updateFriendship (f : FriendshipRow) : FriendshipRow :=
  { f with
    interaction_count := some (f.interaction_count.getD 0 + 1)
    intimacy_score := some (min 100 (f.intimacy_score.getD 0 + 1/10)) }

/-- The friendship table after the update step: the first row matching the
pair (if any) is mutated in place; no match leaves the table unchanged. -/
def updateFriendships (fs : List FriendshipRow) (user_id friend_id : ℤ) :
    List FriendshipRow :=
  match fs with
  | [] => []
  | f :: rest =>
      if matchesPair user_id friend_id f then updateFriendship f :: rest
      else f :: updateFriendships rest user_id friend_id

/-- The persist step (chat.py lines 85-98): the Message row as constructed by
the code, `is_read=False` and all four sentiment columns set to the `0.0`
placeholders. -/
def persistMessage (newId : ℕ) (now : ℕ) (user_id friend_id : ℤ)
    (content : String) : MessageRow :=
  { id := newId
    sender_id := user_id
    receiver_id := friend_id
    content := content
    is_read := false
    sentiment_score := some 0
    positive_score := some 0
    negative_score := some 0
    neutral_score := some 0
    created_at := now }

/-- A JSON value as it appears in the outbound payload. -/
inductive JVal where
  | jnum (q : ℚ)
  | jstr (s : String)
  | jbool (b : Bool)
  | jnull
deriving DecidableEq

/-- A nullable float column serialized into JSON: `null` when absent. -/
def optJNum : Option ℚ → JVal
  | none => .jnull
  | some q => .jnum q

/-- Stand-in for `datetime.isoformat()`: an injective rendering of the
abstract timestamp as a string. -/
def isoFormat (t : ℕ) : String := toString t

/-- The `response_data` dict of chat.py lines 119-127, as an ordered list of
key/value pairs. The code includes `sentiment_score` but none of
`positive_score`, `negative_score`, `neutral_score`. -/
def buildPayload (m : MessageRow) : List (String × JVal) :=
  [("id", .jnum m.id),
   ("sender_id", .jnum m.sender_id),
   ("receiver_id", .jnum m.receiver_id),
   ("content", .jstr m.content),
   ("is_read", .jbool m.is_read),
   ("created_at", .jstr (isoFormat m.created_at)),
   ("sentiment_score", optJNum m.sentiment_score)]

/-- The `active_connections` dict of ConnectionManager: user id to the list
of live channels, absent entry meaning "not online". -/
def Registry : Type := ℤ → Option (List ℕ)

/-- `ConnectionManager.disconnect` (connection_manager.py lines 31-44):
remove the channel from the user's list if present, and delete the entry
entirely when the list is left empty. -/
def disconnect (reg : Registry) (user_id : ℤ) (c : ℕ) : Registry :=
  match reg user_id with
  | none => reg
  | some chans =>
      let remaining := chans.erase c
      if remaining = [] then fun x => if x = user_id then none else reg x
      else fun x => if x = user_id then some remaining else reg x

/-- `ConnectionManager.send_personal_message` (connection_manager.py lines
46-66): no registry entry is a silent no-op; otherwise every channel is
tried independently (`broken` abstracts a `send_text` failure), the failing
ones are collected and then each is disconnected. Returns the new registry
and the list of channels actually delivered to. -/
def send_personal_message (reg : Registry) (broken : ℕ → Bool) (user_id : ℤ) :
    Registry × List ℕ :=
  match reg user_id with
  | none => (reg, [])
  | some chans =>
      let delivered := chans.filter (fun c => !broken c)
      let disconnected := chans.filter broken
      (disconnected.foldl (fun r c => disconnect r user_id c) reg, delivered)

/-- The shared state the websocket handler reads and writes. -/
structure ChatState where
  messages : List MessageRow
  friendships : List FriendshipRow
  registry : Registry

/-- Everything one loop iteration of `websocket_endpoint` produces. -/
structure EventResult where
  state : ChatState
  persisted : Option MessageRow
  delivered : List ℕ
  echo : Option (List (String × JVal))

/-- One inbound frame: JSON (whose `content` key may be missing —
`message_data.get("content", "")`) or raw text used whole as content. -/
inductive Inbound where
  | jsonFrame (content : Option String)
  | rawFrame (s : String)

/-- Content extraction (chat.py lines 74-80). -/
def extractContent : Inbound → String
  | .jsonFrame c => c.getD ""
  | .rawFrame s => s

/-- One iteration of the websocket receive loop (chat.py lines 70-136):
skip empty content, persist, update the friendship aggregate, build the
payload, route to the recipient via the registry, and echo the identical
payload to the sender. -/
def handleEvent (st : ChatState) (broken : ℕ → Bool) (user_id friend_id : ℤ)
    (inb : Inbound) (newId : ℕ) (now : ℕ) : EventResult :=
  let content := extractContent inb
  if content = "" then ⟨st, none, [], none⟩
  else
    let m := persistMessage newId now user_id friend_id content
    let fs := updateFriendships st.friendships user_id friend_id
    let payload := buildPayload m
    let rd := send_personal_message st.registry broken friend_id
    ⟨⟨st.messages ++ [m], fs, rd.1⟩, some m, rd.2, some payload⟩

/-! ## Sentiment collaborator (analysis_service.py, analyze_sentiment_llm) -/

/-- The pydantic `SentimentResult` schema, floats as rationals. -/
structure SentimentResult where
  sentiment_score : ℚ
  positive_score : ℚ
  negative_score : ℚ
  neutral_score : ℚ
deriving DecidableEq

/-- The dict produced by `json.loads` on the API reply, restricted to the
four keys the code reads with `.get`; each may be missing. -/
structure ParsedScores where
  sentiment_score : Option ℚ
  positive_score : Option ℚ
  negative_score : Option ℚ
  neutral_score : Option ℚ

/-- Abstract outcome of the `Generation.call` plus response parsing:
the call (or any line of the `try` block) raises, or it returns a status
code together with the parse result of the reply text (`none` when
`json.loads` raises). -/
inductive CallOutcome where
  | raises
  | returns (status_code : ℤ) (parsed : Option ParsedScores)

/-- The neutral fallback result (analysis_service.py lines 146-161). -/
def neutralResult : SentimentResult :=
  { sentiment_score := 0
    positive_score := 33/100
    negative_score := 33/100
    neutral_score := 34/100 }

/-- Python truthiness of `settings.DASHSCOPE_API_KEY`: unset or empty is
falsy. -/
def keyConfigured : Option String → Bool
  | none => false
  | some k => !(k == "")

/-- `analyze_sentiment_llm` (analysis_service.py lines 76-161): raises
`ValueError` when dashscope is unavailable or the key is unconfigured;
afterwards every path of the `try` block is caught, a non-200 status or any
exception yielding the neutral result, and a successful parse filling the
missing keys with the defaults `0.0, 0.33, 0.33, 0.34`. -/
def analyze_sentiment_llm (dashscope_available : Bool)
    (api_key : Option String) (outcome : CallOutcome) :
    Except String SentimentResult :=
  if !dashscope_available then
    .error "dashscope library is not installed"
  else if !(keyConfigured api_key) then
    .error "DASHSCOPE_API_KEY is not configured in environment variables"
  else
    match outcome with
    | .raises => .ok neutralResult
    | .returns status parsed =>
        if status == 200 then
          match parsed with
          | none => .ok neutralResult
          | some d =>
              .ok { sentiment_score := d.sentiment_score.getD 0
                    positive_score := d.positive_score.getD (33/100)
                    negative_score := d.negative_score.getD (33/100)
                    neutral_score := d.neutral_score.getD (34/100) }
        else .ok neutralResult

/-! ## Ranking aggregation (backend/app/api/api_v1/endpoints/rankings.py,
get_top_friends). A message enters the trend computation only through its
calendar day and its nullable sentiment; days are modelled as natural
indices. -/

/-- A message as seen by the trend computation: its calendar day and its
nullable sentiment score. -/
structure TrendMsg where
  day : ℕ
  sentiment_score : Option ℝ

/-- `daily_counts[msg_date]` (rankings.py lines 125-130): the number of
window messages on a given day. -/
def daily_count (msgs : List TrendMsg) (d : ℕ) : ℕ :=
  (msgs.filter (fun m => m.day == d)).length

/-- `daily_sentiments[msg_date]` (rankings.py lines 126-132): the present
sentiment scores of the window messages on a given day. -/
def daily_sentiments (msgs : List TrendMsg) (d : ℕ) : List ℝ :=
  (msgs.filter (fun m => m.day == d)).filterMap (fun m => m.sentiment_score)

/-- `average_sentiment` (rankings.py lines 32-34): average or 0.0 when
empty. -/
noncomputable def average_sentiment (sentiments : List ℝ) : ℝ :=
  if sentiments = [] then 0 else sentiments.sum / sentiments.length

/-- `calculate_score` (rankings.py lines 24-29): the capped daily score,
0.0 for a day without messages. -/
noncomputable def calculate_score (count : ℕ) (sentiment : ℝ) : ℝ :=
  if 0 < count then
    min 100 (Real.log ((count : ℝ) + 1) * 10 + (sentiment + 1) * 20)
  else 0

/-- Python `round(x, 2)` (rankings.py line 144), modelled as rounding to the
nearest multiple of 1/100. -/
noncomputable def round2 (x : ℝ) : ℝ := ((round (x * 100) : ℤ) : ℝ) / 100

/-- The `activity_trend` list built by the loop of rankings.py lines
134-144: one point per `i in range(days)`, at day `start + i`. -/
def activity_trend (msgs : List TrendMsg) (start days : ℕ) : List (ℕ × ℕ) :=
  (List.range days).map (fun i => (start + i, daily_count msgs (start + i)))

/-- The `score_trend` list built by the same loop: one rounded
`calculate_score` point per `i in range(days)`. -/
noncomputable def score_trend (msgs : List TrendMsg) (start days : ℕ) :
    List (ℕ × ℝ) :=
  (List.range days).map (fun i =>
    (start + i,
     round2 (calculate_score (daily_count msgs (start + i))
       (average_sentiment (daily_sentiments msgs (start + i))))))

/-- The SQL `func.avg(Message.sentiment_score)` over the rows whose
sentiment is not null, with the trailing `or 0.0` turning an absent average
into 0.0 (rankings.py lines 170-177). The full history is a list of
nullable sentiments. -/
noncomputable def sqlAvgSentiment (msgs : List (Option ℝ)) : ℝ :=
  if msgs.filterMap id = [] then 0
  else (msgs.filterMap id).sum / (msgs.filterMap id).length

/-- The two-factor fallback of rankings.py line 181:
`min(100.0, log(message_count + 1) * 10 + (avg_sentiment + 1) * 20)`, with
`message_count` the size of the full history. -/
noncomputable def fallbackIntimacy (msgs : List (Option ℝ)) : ℝ :=
  min 100 (Real.log ((msgs.length : ℝ) + 1) * 10 + (sqlAvgSentiment msgs + 1) * 20)

/-- The resolution of rankings.py lines 157-181: keep the stored
`Relationship.intimacy_score` unless it `is None or == 0.0`, in which case
recompute the two-factor fallback from the full message history. -/
noncomputable def resolveIntimacy (stored : Option ℝ) (msgs : List (Option ℝ)) : ℝ :=
  match stored with
  | none => fallbackIntimacy msgs
  | some s => if s = 0 then fallbackIntimacy msgs else s

/-! ## Concrete fixtures used by the witness theorems -/

/-- The effect of one `disconnect` on the entry of the disconnected user,
viewed on the optional channel list. -/
def optErase (o : Option (List ℕ)) (c : ℕ) : Option (List ℕ) :=
  match o with
  | none => none
  | some l => if l.erase c = [] then none else some (l.erase c)

/-- Example registry: user 2 online with channels 10 and 11, all others
offline. -/
def regEx : Registry := fun x => if x = 2 then some [10, 11] else none

/-- Example fault model: channel 10 is broken, the rest deliver. -/
def brokenEx : ℕ → Bool := fun c => c == 10

/-- Example friendship table: one pending row for the pair (1,2) with four
prior interactions and no intimacy score yet. -/
def friendshipEx : FriendshipRow :=
  { user_id := 1, friend_id := 2, status := "pending"
    intimacy_score := none, interaction_count := some 4 }

/-! ### Helper lemmas about the factors -/

theorem frequencyFactor_nonneg (c : ℤ) : 0 ≤ frequencyFactor c := by
  unfold frequencyFactor
  split
  · rename_i hc
    refine le_min (by norm_num) (mul_nonneg (Real.log_nonneg ?_) (by norm_num))
    have : (1 : ℝ) ≤ (c : ℝ) := by exact_mod_cast hc
    linarith
  · norm_num

theorem frequencyFactor_le_30 (c : ℤ) : frequencyFactor c ≤ 30 := by
  unfold frequencyFactor
  split
  · exact min_le_left _ _
  · norm_num

theorem listAvg_bounds (S : List ℝ) (h : ∀ x ∈ S, -1 ≤ x ∧ x ≤ 1) :
    -1 ≤ listAvg S ∧ listAvg S ≤ 1 := by
  unfold listAvg
  split
  · norm_num
  · rename_i hS
    have hlen : 0 < (S.length : ℝ) := by
      have := List.length_pos.mpr hS
      exact_mod_cast this
    have hub := List.sum_le_card_nsmul S 1 (fun x hx => (h x hx).2)
    have hlb := List.card_nsmul_le_sum S (-1) (fun x hx => (h x hx).1)
    simp only [nsmul_eq_mul, mul_one, mul_neg_one] at hub hlb
    constructor
    · rw [le_div_iff₀ hlen]; linarith
    · rw [div_le_iff₀ hlen]; linarith

theorem consecutiveFactor_le_10 (vals : List ℤ) : consecutiveFactor vals ≤ 10 := by
  unfold consecutiveFactor
  repeat' split
  all_goals norm_num

theorem consecutiveFactor_nonneg (vals : List ℤ) : 0 ≤ consecutiveFactor vals := by
  unfold consecutiveFactor
  repeat' split
  all_goals norm_num

theorem flowFactor_bounds (a b : ℤ) : 0 ≤ flowFactor a b ∧ flowFactor a b ≤ 20 := by
  unfold flowFactor
  split <;> norm_num

theorem sentimentFactor_bounds (S : List ℝ) (h : ∀ x ∈ S, -1 ≤ x ∧ x ≤ 1) :
    0 ≤ sentimentFactor S ∧ sentimentFactor S ≤ 40 := by
  obtain ⟨h1, h2⟩ := listAvg_bounds S h
  unfold sentimentFactor
  constructor <;> nlinarith

/-! ### Helper lemmas about the connection registry -/

theorem disconnect_apply_self (reg : Registry) (user_id : ℤ) (c : ℕ) :
    disconnect reg user_id c user_id = optErase (reg user_id) c := by
  unfold disconnect optErase
  cases h : reg user_id with
  | none => simp [h]
  | some chans => dsimp only; split <;> simp

theorem disconnect_apply_other (reg : Registry) (user_id : ℤ) (c : ℕ)
    (x : ℤ) (hx : x ≠ user_id) : disconnect reg user_id c x = reg x := by
  unfold disconnect
  cases h : reg user_id with
  | none => simp
  | some chans => dsimp only; split <;> simp [hx]

theorem foldl_disconnect_apply_self (cs : List ℕ) (reg : Registry) (user_id : ℤ) :
    (cs.foldl (fun r c => disconnect r user_id c) reg) user_id =
      cs.foldl optErase (reg user_id) := by
  induction cs generalizing reg with
  | nil => rfl
  | cons c cs ih => simp [List.foldl_cons, ih, disconnect_apply_self]

theorem foldl_disconnect_apply_other (cs : List ℕ) (reg : Registry)
    (user_id : ℤ) (x : ℤ) (hx : x ≠ user_id) :
    (cs.foldl (fun r c => disconnect r user_id c) reg) x = reg x := by
  induction cs generalizing reg with
  | nil => rfl
  | cons c cs ih => simp [List.foldl_cons, ih, disconnect_apply_other _ _ _ _ hx]

theorem foldl_optErase_none (cs : List ℕ) : cs.foldl optErase none = none := by
  induction cs with
  | nil => rfl
  | cons c cs ih => simpa [optErase] using ih

theorem foldl_optErase_some (cs : List ℕ) (l : List ℕ) (hl : l ≠ []) :
    cs.foldl optErase (some l) =
      if l.diff cs = [] then none else some (l.diff cs) := by
  induction cs generalizing l with
  | nil => simp [List.diff_nil, hl]
  | cons c cs ih =>
      rw [List.foldl_cons, List.diff_cons]
      by_cases h2 : l.erase c = []
      · rw [show optErase (some l) c = none by simp [optErase, h2]]
        rw [foldl_optErase_none, h2]
        simp [List.nil_diff]
      · rw [show optErase (some l) c = some (l.erase c) by simp [optErase, h2]]
        exact ih (l.erase c) h2

theorem diff_filter_of_nodup (chans : List ℕ) (hnd : chans.Nodup)
    (broken : ℕ → Bool) :
    chans.diff (chans.filter broken) = chans.filter (fun c => !broken c) := by
  rw [List.Nodup.diff_eq_filter hnd]
  refine List.filter_congr ?_
  intro c hc
  cases hb : broken c <;> simp [List.mem_filter, hc, hb]

/-! ### Helper lemmas about the friendship update -/

theorem updateFriendships_of_find_none (fs : List FriendshipRow)
    (user_id friend_id : ℤ)
    (h : findFriendship fs user_id friend_id = none) :
    updateFriendships fs user_id friend_id = fs := by
  induction fs with
  | nil => rfl
  | cons f rest ih =>
      rw [findFriendship, List.find?_eq_none] at h
      have hf : matchesPair user_id friend_id f = false := by
        have := h f (by simp)
        simpa using this
      rw [updateFriendships, if_neg (by simp [hf])]
      rw [ih]
      rw [findFriendship, List.find?_eq_none]
      intro x hx
      exact h x (List.mem_cons_of_mem f hx)

theorem updateFriendships_of_find_some (fs : List FriendshipRow)
    (user_id friend_id : ℤ) (f : FriendshipRow)
    (h : findFriendship fs user_id friend_id = some f) :
    ∃ l₁ l₂, fs = l₁ ++ f :: l₂ ∧
      (∀ g ∈ l₁, matchesPair user_id friend_id g = false) ∧
      updateFriendships fs user_id friend_id = l₁ ++ updateFriendship f :: l₂ := by
  induction fs with
  | nil => simp [findFriendship] at h
  | cons g rest ih =>
      by_cases hg : matchesPair user_id friend_id g
      · have hgf : g = f := by
          rw [findFriendship, List.find?_cons_of_pos _ hg] at h
          exact Option.some_injective _ h
        refine ⟨[], rest, by simp [hgf], by simp, ?_⟩
        rw [updateFriendships, if_pos hg, hgf]
        simp
      · have h2 : findFriendship rest user_id friend_id = some f := by
          rw [findFriendship, List.find?_cons_of_neg _ (by simpa using hg)] at h
          exact h
        obtain ⟨l₁, l₂, he, hmiss, hu⟩ := ih h2
        refine ⟨g :: l₁, l₂, by simp [he], ?_, ?_⟩
        · intro x hx
          rcases List.mem_cons.mp hx with hx | hx
          · subst hx; simpa using hg
          · exact hmiss x hx
        · rw [updateFriendships, if_neg (by simpa using hg), hu]
          simp

/-- C5: for every list of floats each in [-1,1], the sentiment factor equals
`((avg + 1) / 2) * 40` with the empty average taken as 0.0; hence it lies in
[0,40], and the empty list yields exactly the midpoint 20.0, not 0. -/
theorem claim_C5_sentiment_factor (S : List ℝ) (h : ∀ x ∈ S, -1 ≤ x ∧ x ≤ 1) :
    sentimentFactor S = ((listAvg S + 1) / 2) * 40 ∧
    0 ≤ sentimentFactor S ∧ sentimentFactor S ≤ 40 ∧
    sentimentFactor [] = 20 := by
  refine ⟨rfl, (sentimentFactor_bounds S h).1, (sentimentFactor_bounds S h).2, ?_⟩
  unfold sentimentFactor listAvg
  norm_num

theorem claim_C5_sentiment_factor_witness :
    sentimentFactor [] = ((listAvg [] + 1) / 2) * 40 ∧
    0 ≤ sentimentFactor [] ∧ sentimentFactor [] ≤ 40 ∧
    sentimentFactor [] = 20 :=
  claim_C5_sentiment_factor [] (by simp)

/-- C9: for count ≥ 0 the frequency factor is 0 at 0 and
`min(30, ln(count+1)*10)` for positive count; it lies in [0,30] and is
monotonically non-decreasing in count. -/
theorem claim_C9_frequency_factor (c₁ c₂ : ℤ) (h0 : 0 ≤ c₁) (h12 : c₁ ≤ c₂) :
    frequencyFactor 0 = 0 ∧
    (0 < c₁ → frequencyFactor c₁ = min 30 (Real.log ((c₁ : ℝ) + 1) * 10)) ∧
    (0 ≤ frequencyFactor c₁ ∧ frequencyFactor c₁ ≤ 30) ∧
    frequencyFactor c₁ ≤ frequencyFactor c₂ := by
  refine ⟨by unfold frequencyFactor; norm_num,
          fun hc => by unfold frequencyFactor; rw [if_pos hc],
          ⟨frequencyFactor_nonneg c₁, frequencyFactor_le_30 c₁⟩, ?_⟩
  by_cases hc1 : 0 < c₁
  · have hc2 : 0 < c₂ := lt_of_lt_of_le hc1 h12
    unfold frequencyFactor
    rw [if_pos hc1, if_pos hc2]
    refine min_le_min le_rfl (mul_le_mul_of_nonneg_right ?_ (by norm_num))
    have hx : (0 : ℝ) < (c₁ : ℝ) + 1 := by
      have : (0 : ℝ) ≤ (c₁ : ℝ) := by exact_mod_cast h0
      linarith
    refine Real.log_le_log hx ?_
    have : (c₁ : ℝ) ≤ (c₂ : ℝ) := by exact_mod_cast h12
    linarith
  · have : frequencyFactor c₁ = 0 := by unfold frequencyFactor; rw [if_neg hc1]
    rw [this]
    exact frequencyFactor_nonneg c₂

theorem claim_C9_frequency_factor_witness :
    frequencyFactor 0 = 0 ∧
    (0 < (2 : ℤ) → frequencyFactor 2 = min 30 (Real.log (((2 : ℤ) : ℝ) + 1) * 10)) ∧
    (0 ≤ frequencyFactor 2 ∧ frequencyFactor 2 ≤ 30) ∧
    frequencyFactor 2 ≤ frequencyFactor 3 :=
  claim_C9_frequency_factor 2 3 (by norm_num) (by norm_num)

/-- C4: for all inputs whatsoever — any float list, any integer message
count, any ids, any consecutive-messages values — the total returned by
`calculate_intimacy` equals the sum of the four returned factors clamped to
[0,100], and therefore lies in [0,100]. -/
theorem claim_C4_intimacy_clamped (sentiment_scores : List ℝ) (message_count : ℤ)
    (last_sender_id current_user_id : ℤ) (consecutive_values : List ℤ) :
    (calculate_intimacy sentiment_scores message_count last_sender_id
        current_user_id consecutive_values).intimacy_score =
      max 0 (min 100
        ((calculate_intimacy sentiment_scores message_count last_sender_id
            current_user_id consecutive_values).sentiment_factor +
         (calculate_intimacy sentiment_scores message_count last_sender_id
            current_user_id consecutive_values).frequency_factor +
         (calculate_intimacy sentiment_scores message_count last_sender_id
            current_user_id consecutive_values).flow_factor +
         (calculate_intimacy sentiment_scores message_count last_sender_id
            current_user_id consecutive_values).consecutive_factor)) ∧
    0 ≤ (calculate_intimacy sentiment_scores message_count last_sender_id
            current_user_id consecutive_values).intimacy_score ∧
    (calculate_intimacy sentiment_scores message_count last_sender_id
            current_user_id consecutive_values).intimacy_score ≤ 100 := by
  refine ⟨rfl, le_max_left _ _, ?_⟩
  exact max_le (by norm_num) (min_le_left _ _)

/-- C1 (evaluation of the code at the failing input): the persist step of the
websocket pipeline never leaves the sentiment columns absent — for every
inbound event it stores `is_read=false` together with the four `0.0`
placeholder sentiment values, so `sentiment_score` is present (`some 0`)
already at creation time, contradicting the claimed "sentiment fields
absent" (the repository's own tests expect `None` here). -/
theorem claim_C1_placeholders_present (newId now : ℕ) (user_id friend_id : ℤ)
    (content : String) :
    (persistMessage newId now user_id friend_id content).is_read = false ∧
    (persistMessage newId now user_id friend_id content).sentiment_score = some 0 ∧
    (persistMessage newId now user_id friend_id content).positive_score = some 0 ∧
    (persistMessage newId now user_id friend_id content).negative_score = some 0 ∧
    (persistMessage newId now user_id friend_id content).neutral_score = some 0 ∧
    (persistMessage newId now user_id friend_id content).sentiment_score ≠ none :=
  ⟨rfl, rfl, rfl, rfl, rfl, by simp [persistMessage]⟩

/-- C2 (evaluation of the code at the failing input): the outbound payload
built by the websocket pipeline carries exactly the seven keys id,
sender_id, receiver_id, content, is_read, created_at, sentiment_score — the
keys positive_score, negative_score and neutral_score claimed by the spec
(and asserted by the repository's tests) are missing. -/
theorem claim_C2_payload_keys (m : MessageRow) :
    (buildPayload m).map Prod.fst =
      ["id", "sender_id", "receiver_id", "content", "is_read", "created_at",
       "sentiment_score"] ∧
    "positive_score" ∉ (buildPayload m).map Prod.fst ∧
    "negative_score" ∉ (buildPayload m).map Prod.fst ∧
    "neutral_score" ∉ (buildPayload m).map Prod.fst :=
  ⟨rfl, by simp [buildPayload], by simp [buildPayload], by simp [buildPayload]⟩

/-- C3: for every persisted inbound message, if a Friendship row matches the
(sender, receiver) pair in either orientation — status never being
consulted — the pipeline replaces that first matching row by one whose
interaction_count is the old count (None read as 0) plus 1 and whose
intimacy_score is min(100, old + 0.1) with an unset score initialized to 0;
when no row matches, the table is unchanged, and in every case the event
still persists, routes and echoes. -/
theorem claim_C3_relationship_update (st : ChatState) (broken : ℕ → Bool)
    (user_id friend_id : ℤ) (inb : Inbound) (newId now : ℕ)
    (hc : extractContent inb ≠ "") :
    (∀ f, findFriendship st.friendships user_id friend_id = some f →
      ∃ l₁ l₂, st.friendships = l₁ ++ f :: l₂ ∧
        (handleEvent st broken user_id friend_id inb newId now).state.friendships
          = l₁ ++ updateFriendship f :: l₂ ∧
        (updateFriendship f).interaction_count
          = some (f.interaction_count.getD 0 + 1) ∧
        (updateFriendship f).intimacy_score
          = some (min 100 (f.intimacy_score.getD 0 + 1/10)) ∧
        (updateFriendship f).status = f.status) ∧
    (findFriendship st.friendships user_id friend_id = none →
      (handleEvent st broken user_id friend_id inb newId now).state.friendships
        = st.friendships) ∧
    (handleEvent st broken user_id friend_id inb newId now).persisted
      = some (persistMessage newId now user_id friend_id (extractContent inb)) ∧
    (handleEvent st broken user_id friend_id inb newId now).echo
      = some (buildPayload (persistMessage newId now user_id friend_id
          (extractContent inb))) ∧
    (∀ g s, matchesPair user_id friend_id { g with status := s }
      = matchesPair user_id friend_id g) := by
  refine ⟨?_, ?_, ?_, ?_, fun g s => rfl⟩
  · intro f hf
    obtain ⟨l₁, l₂, he, hmiss, hu⟩ :=
      updateFriendships_of_find_some st.friendships user_id friend_id f hf
    refine ⟨l₁, l₂, he, ?_, rfl, rfl, rfl⟩
    simp only [handleEvent, if_neg hc]
    exact hu
  · intro hf
    simp only [handleEvent, if_neg hc]
    exact updateFriendships_of_find_none st.friendships user_id friend_id hf
  · simp only [handleEvent, if_neg hc]
  · simp only [handleEvent, if_neg hc]

theorem claim_C3_relationship_update_witness :
    (updateFriendship friendshipEx).interaction_count = some 5 ∧
    (updateFriendship friendshipEx).intimacy_score = some (1/10) ∧
    (handleEvent ⟨[], [], regEx⟩ brokenEx 1 2 (.rawFrame "hi") 7 3).state.friendships
      = [] ∧
    (handleEvent ⟨[], [], regEx⟩ brokenEx 1 2 (.rawFrame "hi") 7 3).echo
      = some (buildPayload (persistMessage 7 3 1 2 "hi")) := by
  have h1 := claim_C3_relationship_update ⟨[], [friendshipEx], regEx⟩ brokenEx
    1 2 (.rawFrame "hi") 7 3 (by decide)
  have h2 := claim_C3_relationship_update ⟨[], [], regEx⟩ brokenEx
    1 2 (.rawFrame "hi") 7 3 (by decide)
  obtain ⟨-, -, -, -, hic, his, -⟩ := h1.1 friendshipEx (by decide)
  refine ⟨?_, ?_, h2.2.1 rfl, h2.2.2.2.1⟩
  · rw [hic]; decide
  · rw [his]
    have h10 : friendshipEx.intimacy_score.getD 0 + 1/10 = (1/10 : ℚ) := by
      norm_num [friendshipEx]
    rw [h10, min_eq_right (by norm_num : (1/10 : ℚ) ≤ 100)]

/-- C6: send_personal_message for an unregistered user is a silent no-op
returning the registry unchanged; for a registered user every non-broken
channel is delivered to regardless of failures on other channels, exactly
the broken channels are removed from the user's entry (the entry being
deleted when none survive) while other users' entries are untouched; and
the pipeline echoes the payload to the sender whatever the recipient-side
failures were. -/
theorem claim_C6_send_semantics (reg : Registry) (broken : ℕ → Bool)
    (user_id : ℤ) :
    (reg user_id = none → send_personal_message reg broken user_id = (reg, [])) ∧
    (∀ chans, reg user_id = some chans →
      (send_personal_message reg broken user_id).2
        = chans.filter (fun c => !broken c) ∧
      (chans ≠ [] → chans.Nodup →
        (send_personal_message reg broken user_id).1 user_id
          = (if chans.filter (fun c => !broken c) = [] then none
             else some (chans.filter (fun c => !broken c)))) ∧
      (∀ x, x ≠ user_id →
        (send_personal_message reg broken user_id).1 x = reg x)) ∧
    (∀ st inb newId now sender_id, extractContent inb ≠ "" →
      (handleEvent st broken sender_id user_id inb newId now).echo
        = some (buildPayload (persistMessage newId now sender_id user_id
            (extractContent inb)))) := by
  refine ⟨?_, ?_, ?_⟩
  · intro h
    unfold send_personal_message
    rw [h]
  · intro chans h
    unfold send_personal_message
    rw [h]
    dsimp only
    refine ⟨rfl, ?_, ?_⟩
    · intro hne hnd
      rw [foldl_disconnect_apply_self, h,
        foldl_optErase_some (chans.filter broken) chans hne,
        diff_filter_of_nodup chans hnd broken]
    · intro x hx
      exact foldl_disconnect_apply_other _ _ _ _ hx
  · intro st inb newId now sender_id hc
    simp only [handleEvent, if_neg hc]

theorem claim_C6_send_semantics_witness :
    send_personal_message regEx brokenEx 3 = (regEx, []) ∧
    (send_personal_message regEx brokenEx 2).2 = [11] ∧
    (send_personal_message regEx brokenEx 2).1 2 = some [11] ∧
    (send_personal_message regEx brokenEx 2).1 9 = regEx 9 ∧
    (handleEvent ⟨[], [], regEx⟩ brokenEx 1 2 (.jsonFrame (some "yo")) 7 3).echo
      = some (buildPayload (persistMessage 7 3 1 2 "yo")) := by
  have h3 := claim_C6_send_semantics regEx brokenEx 3
  have h2 := claim_C6_send_semantics regEx brokenEx 2
  have hr2 : regEx 2 = some [10, 11] := by simp [regEx]
  have hd := (h2.2.1 [10, 11] hr2).1
  have he := (h2.2.1 [10, 11] hr2).2.1 (by decide) (by decide)
  refine ⟨h3.1 (by simp [regEx]), ?_, ?_,
    (h2.2.1 [10, 11] hr2).2.2 9 (by decide), h2.2.2 ⟨[], [], regEx⟩
      (.jsonFrame (some "yo")) 7 3 1 (by decide)⟩
  · rw [hd]; rfl
  · rw [he]; rfl

/-- C10: the sentiment collaborator raises exactly when the dashscope
library is unavailable or the API key is unconfigured (unset or empty);
once both preconditions hold it never raises — a raised call, a non-200
status, an unparsable reply and a reply missing all score keys each return
the neutral result (0.0, 0.33, 0.33, 0.34), and a parsed reply fills each
missing key with its documented default. -/
theorem claim_C10_sentiment_error_contract (avail : Bool) (key : Option String)
    (outcome : CallOutcome) :
    ((∃ e, analyze_sentiment_llm avail key outcome = .error e) ↔
      (avail = false ∨ keyConfigured key = false)) ∧
    (avail = true → keyConfigured key = true →
      (∃ r, analyze_sentiment_llm avail key outcome = .ok r) ∧
      (outcome = .raises →
        analyze_sentiment_llm avail key outcome = .ok neutralResult) ∧
      (∀ s p, outcome = .returns s p → s ≠ 200 →
        analyze_sentiment_llm avail key outcome = .ok neutralResult) ∧
      (outcome = .returns 200 none →
        analyze_sentiment_llm avail key outcome = .ok neutralResult) ∧
      (∀ d, outcome = .returns 200 (some d) →
        analyze_sentiment_llm avail key outcome
          = .ok { sentiment_score := d.sentiment_score.getD 0
                  positive_score := d.positive_score.getD (33/100)
                  negative_score := d.negative_score.getD (33/100)
                  neutral_score := d.neutral_score.getD (34/100) }) ∧
      (outcome = .returns 200 (some ⟨none, none, none, none⟩) →
        analyze_sentiment_llm avail key outcome = .ok neutralResult)) := by
  have hok : avail = true → keyConfigured key = true →
      ∃ r, analyze_sentiment_llm avail key outcome = .ok r := by
    intro ha hk
    cases outcome with
    | raises => exact ⟨neutralResult, by simp [analyze_sentiment_llm, ha, hk]⟩
    | returns s p =>
        rcases p with _ | d
        · exact ⟨neutralResult, by simp [analyze_sentiment_llm, ha, hk]⟩
        · by_cases hs : s = 200
          · exact ⟨{ sentiment_score := d.sentiment_score.getD 0
                     positive_score := d.positive_score.getD (33/100)
                     negative_score := d.negative_score.getD (33/100)
                     neutral_score := d.neutral_score.getD (34/100) },
              by simp [analyze_sentiment_llm, ha, hk, hs]⟩
          · exact ⟨neutralResult, by simp [analyze_sentiment_llm, ha, hk, hs]⟩
  constructor
  · constructor
    · rintro ⟨e, he⟩
      by_contra hcon
      push_neg at hcon
      obtain ⟨h1, h2⟩ := hcon
      obtain ⟨r, hr⟩ := hok (by simpa using h1) (by simpa using h2)
      rw [hr] at he
      exact Except.noConfusion he
    · rintro (h | h)
      · exact ⟨"dashscope library is not installed",
          by simp [analyze_sentiment_llm, h]⟩
      · cases ha : avail with
        | false => exact ⟨"dashscope library is not installed",
            by simp [analyze_sentiment_llm]⟩
        | true => exact ⟨"DASHSCOPE_API_KEY is not configured in environment variables",
            by simp [analyze_sentiment_llm, h]⟩
  · intro ha hk
    refine ⟨hok ha hk, ?_, ?_, ?_, ?_, ?_⟩
    · rintro rfl; simp [analyze_sentiment_llm, ha, hk]
    · rintro s p rfl hs; simp [analyze_sentiment_llm, ha, hk, hs]
    · rintro rfl; simp [analyze_sentiment_llm, ha, hk]
    · rintro d rfl; simp [analyze_sentiment_llm, ha, hk]
    · rintro rfl
      simp [analyze_sentiment_llm, ha, hk]
      rfl

theorem claim_C10_sentiment_error_contract_witness :
    (∃ e, analyze_sentiment_llm false none CallOutcome.raises = .error e) ∧
    (∃ e, analyze_sentiment_llm true (some "") CallOutcome.raises = .error e) ∧
    analyze_sentiment_llm true (some "k") CallOutcome.raises
      = .ok neutralResult ∧
    analyze_sentiment_llm true (some "k")
      (.returns 500 (some ⟨some 1, none, none, none⟩)) = .ok neutralResult ∧
    analyze_sentiment_llm true (some "k") (.returns 200 none)
      = .ok neutralResult ∧
    analyze_sentiment_llm true (some "k")
      (.returns 200 (some ⟨none, none, none, none⟩)) = .ok neutralResult := by
  refine ⟨(claim_C10_sentiment_error_contract false none .raises).1.mpr
      (Or.inl rfl),
    (claim_C10_sentiment_error_contract true (some "") .raises).1.mpr
      (Or.inr (by decide)),
    ((claim_C10_sentiment_error_contract true (some "k") .raises).2 rfl
      (by decide)).2.1 rfl,
    ((claim_C10_sentiment_error_contract true (some "k")
      (.returns 500 (some ⟨some 1, none, none, none⟩))).2 rfl
      (by decide)).2.2.1 500 (some ⟨some 1, none, none, none⟩) rfl (by decide),
    ((claim_C10_sentiment_error_contract true (some "k")
      (.returns 200 none)).2 rfl (by decide)).2.2.2.1 rfl,
    ((claim_C10_sentiment_error_contract true (some "k")
      (.returns 200 (some ⟨none, none, none, none⟩))).2 rfl
      (by decide)).2.2.2.2.2 rfl⟩

theorem calculate_score_zero (s : ℝ) : calculate_score 0 s = 0 := by
  unfold calculate_score
  norm_num

theorem round2_zero : round2 0 = 0 := by
  unfold round2
  norm_num

/-- C7: for every window length `days` in [1,30] the activity and score
trend lists each hold exactly `days` points, one per calendar day of the
inclusive window starting at `start`, and a day with no messages yields the
point (day, 0) in both lists. -/
theorem claim_C7_trend_points (msgs : List TrendMsg) (start days : ℕ)
    (h1 : 1 ≤ days) (h2 : days ≤ 30) :
    (activity_trend msgs start days).length = days ∧
    (score_trend msgs start days).length = days ∧
    (∀ i, i < days → daily_count msgs (start + i) = 0 →
      (activity_trend msgs start days)[i]? = some (start + i, 0) ∧
      (score_trend msgs start days)[i]? = some (start + i, 0)) := by
  refine ⟨by simp [activity_trend], by simp [score_trend], ?_⟩
  intro i hi hz
  constructor
  · simp [activity_trend, List.getElem?_map, List.getElem?_range, hi, hz]
  · simp [score_trend, List.getElem?_map, List.getElem?_range, hi, hz,
      calculate_score_zero, round2_zero]

theorem claim_C7_trend_points_witness :
    (activity_trend [] 0 7).length = 7 ∧
    (score_trend [] 0 7).length = 7 ∧
    (activity_trend [] 0 7)[3]? = some (0 + 3, 0) ∧
    (score_trend [] 0 7)[3]? = some (0 + 3, 0) := by
  have h := claim_C7_trend_points [] 0 7 (by norm_num) (by norm_num)
  have h3 := h.2.2 3 (by norm_num) rfl
  exact ⟨h.1, h.2.1, h3.1, h3.2⟩

/-- C8: the resolved intimacy score of the ranking endpoint is the stored
Relationship.intimacy_score exactly when that value is present and nonzero;
otherwise it is the two-factor fallback
min(100, ln(count+1)*10 + (avg+1)*20) over the full unwindowed history,
whose average counts only the messages with a present sentiment and is 0.0
when there are none. -/
theorem claim_C8_intimacy_resolution (stored : Option ℝ) (msgs : List (Option ℝ)) :
    (∀ s, stored = some s → s ≠ 0 → resolveIntimacy stored msgs = s) ∧
    ((stored = none ∨ stored = some 0) →
      resolveIntimacy stored msgs =
        min 100 (Real.log ((msgs.length : ℝ) + 1) * 10 +
          (sqlAvgSentiment msgs + 1) * 20)) ∧
    (msgs.filterMap id = [] → sqlAvgSentiment msgs = 0) := by
  refine ⟨?_, ?_, ?_⟩
  · intro s hs hne
    subst hs
    simp [resolveIntimacy, hne]
  · rintro (h | h) <;> subst h <;> simp [resolveIntimacy, fallbackIntimacy]
  · intro h
    simp [sqlAvgSentiment, h]

theorem claim_C8_intimacy_resolution_witness :
    resolveIntimacy (some 5) [some 1, none] = 5 ∧
    resolveIntimacy (some 0) [] =
      min 100 (Real.log ((List.length ([] : List (Option ℝ)) : ℝ) + 1) * 10 +
        (sqlAvgSentiment [] + 1) * 20) ∧
    sqlAvgSentiment ([] : List (Option ℝ)) = 0 :=
  ⟨(claim_C8_intimacy_resolution (some 5) [some 1, none]).1 5 rfl (by norm_num),
   (claim_C8_intimacy_resolution (some 0) []).2.1 (Or.inr rfl),
   (claim_C8_intimacy_resolution (some 0) []).2.2 rfl⟩

end SNS
